import Mathlib

/-!
Verification of the Worldle geography-guessing game.

The development shallowly embeds the game's core logic:

* the geodesic engine (`getDistanceFromLatLonInKm`, `getDirection`, from
  `lib/utils`, included at the end of `src/app/page_overlay.tsx`), modelled
  over the real numbers with JavaScript's `Math.atan2`, `Math.round` and `%`
  semantics made explicit;
* the round/game state machine of `src/app/page.tsx` (`submitGuess`,
  `skipRound`, `startNewRound`, `getTodaysCountry`, `calculateAverageScore`),
  modelled as explicit state passing over a `GameState` record.

The static country table (`@/lib/countries`) is external configuration and is
passed as an explicit `List Country` parameter.  Purely cosmetic state
(globe camera moves, globe points, arcs, the 3-second error timeout) is not
modelled; the observable game state (target, guesses, flags, error message,
round results) is.
-/

namespace Worldle

/-- A record of the static country table: name (lookup key), code (unique
identifier), latitude and longitude in signed degrees. -/
structure Country where
  name : String
  code : String
  latitude : ℝ
  longitude : ℝ

/-- One accepted guess: the guessed country and its computed great-circle
distance to the target, in kilometers. -/
structure Guess where
  country : Country
  distance : ℝ

/-- Summary of one completed round: the target country, how many guesses were
made, and whether the round was won. -/
structure RoundResult where
  country : Country
  guesses : ℕ
  won : Bool

/-- Degrees to radians, from `deg2rad` in `lib/utils`. -/
noncomputable def deg2rad (deg : ℝ) : ℝ :=
  deg * (Real.pi / 180)

/-- Real-valued model of JavaScript's `Math.atan2(y, x)`: the angle of the
point `(x, y)` in `(-pi, pi]`, with `atan2 0 0 = 0`. -/
noncomputable def atan2 (y x : ℝ) : ℝ :=
  if 0 < x then Real.arctan (y / x)
  else if x < 0 then
    (if 0 ≤ y then Real.arctan (y / x) + Real.pi else Real.arctan (y / x) - Real.pi)
  else
    (if 0 < y then Real.pi / 2 else if y < 0 then -(Real.pi / 2) else 0)

/-- Haversine great-circle distance in kilometers with Earth radius 6371 km,
from `getDistanceFromLatLonInKm` in `lib/utils`. -/
noncomputable def getDistanceFromLatLonInKm (lat1 lon1 lat2 lon2 : ℝ) : ℝ :=
  let R : ℝ := 6371
  let dLat := deg2rad (lat2 - lat1)
  let dLon := deg2rad (lon2 - lon1)
  let a := Real.sin (dLat / 2) * Real.sin (dLat / 2) +
    Real.cos (deg2rad lat1) * Real.cos (deg2rad lat2) *
    Real.sin (dLon / 2) * Real.sin (dLon / 2)
  let c := 2 * atan2 (Real.sqrt a) (Real.sqrt (1 - a))
  R * c

/-- Model of JavaScript's truncating conversion used by the `%` operator:
round toward zero. -/
noncomputable def jsTrunc (x : ℝ) : ℤ :=
  if 0 ≤ x then ⌊x⌋ else ⌈x⌉

/-- Model of JavaScript's remainder operator `a % b` on numbers: the remainder
of truncating division, with the sign of the dividend. -/
noncomputable def jsMod (a b : ℝ) : ℝ :=
  a - b * (jsTrunc (a / b) : ℝ)

/-- Model of JavaScript's `Math.round`: floor of `x + 1/2` (halves round up). -/
noncomputable def jsRound (x : ℝ) : ℤ :=
  ⌊x + 1 / 2⌋

/-- The compass lookup table of `getDirection`: nine entries, index 8 folding
back to north. -/
def compass : List String :=
  ["N", "NE", "E", "SE", "S", "SW", "W", "NW", "N"]

/-- Initial compass bearing from point 1 to point 2 bucketed into a compass
label, from `getDirection` in `lib/utils`.  An out-of-range index (which
JavaScript would answer with `undefined`) is modelled by the string
`"undefined"`. -/
noncomputable def getDirection (lat1 lon1 lat2 lon2 : ℝ) : String :=
  let dLon := deg2rad (lon2 - lon1)
  let y := Real.sin dLon * Real.cos (deg2rad lat2)
  let x := Real.cos (deg2rad lat1) * Real.sin (deg2rad lat2) -
    Real.sin (deg2rad lat1) * Real.cos (deg2rad lat2) * Real.cos dLon
  let brng := atan2 y x
  let deg := brng * 180 / Real.pi
  let index := jsRound (jsMod (deg + 360) 360 / 45)
  if index < 0 then "undefined" else compass.getD index.toNat "undefined"

/-- Distance-to-feedback-text classification, from `getHotColdText` in
`src/app/page.tsx` (the source file's literals are shown with damaged emoji
encoding; the intact literals of the identical function in the layout-only
variant are used). -/
noncomputable def getHotColdText (distance : ℝ) : String :=
  if distance = 0 then "🎯 CORRECT!"
  else if distance < 1000 then "🔥 HOT"
  else if distance < 3000 then "🌡️ WARM"
  else if distance < 8000 then "❄️ COOL"
  else "🧊 COLD"

/-- The observable game state held by the `Home` component of
`src/app/page.tsx`: current target (if a round was started), typed input,
guess history (most recent first), round-over and win flags, suggestion
visibility, transient error message, and per-round summary records. -/
structure GameState where
  targetCountry : Option Country
  inputValue : String
  guesses : List Guess
  roundOver : Bool
  win : Bool
  showSuggestions : Bool
  error : String
  roundResults : List RoundResult

/-- The component's initial state: no target, no guesses, nothing terminal. -/
def initState : GameState :=
  { targetCountry := none
    inputValue := ""
    guesses := []
    roundOver := false
    win := false
    showSuggestions := false
    error := ""
    roundResults := [] }

/-- Model of JavaScript's `String.prototype.toLowerCase`: per-character
lowercasing of the string's character sequence. -/
def toLowerCase (s : String) : List Char :=
  s.data.map Char.toLower

/-- Candidate resolution of `submitGuess` in `src/app/page.tsx`:
`selectedCountry || countries.find(c => c.name.toLowerCase() === inputValue.toLowerCase())`
— a directly selected country, or else a case-insensitive exact name match of
the typed input against the table. -/
def resolveCandidate (countries : List Country) (selectedCountry : Option Country)
    (inputValue : String) : Option Country :=
  match selectedCountry with
  | some c => some c
  | none => countries.find? (fun c => toLowerCase c.name == toLowerCase inputValue)

/-- Guess submission, from `submitGuess` in `src/app/page.tsx`: a no-op on a
terminal round or with no target; otherwise resolves the candidate, rejects
unknown names and duplicate codes with an error message and no other change,
and on success prepends the guess, computes its distance, and — when the
guessed code equals the target code — marks the round won and records its
summary. -/
noncomputable def submitGuess (countries : List Country) (selectedCountry : Option Country)
    (s : GameState) : GameState :=
  match s.roundOver, s.targetCountry with
  | false, some targetCountry =>
    let guessedCountry := resolveCandidate countries selectedCountry s.inputValue
    match guessedCountry with
    | none => { s with error := "Country not found! Please select from the list." }
    | some guessedCountry =>
      if s.guesses.any (fun g => g.country.code == guessedCountry.code) then
        { s with error := "You already guessed this country!" }
      else
        let distance := getDistanceFromLatLonInKm guessedCountry.latitude
          guessedCountry.longitude targetCountry.latitude targetCountry.longitude
        let newGuess : Guess := { country := guessedCountry, distance := distance }
        let updatedGuesses := newGuess :: s.guesses
        let s1 := { s with guesses := updatedGuesses, inputValue := "",
                           showSuggestions := false, error := "" }
        if guessedCountry.code == targetCountry.code then
          { s1 with win := true, roundOver := true,
                    roundResults := s1.roundResults ++
                      [{ country := targetCountry, guesses := updatedGuesses.length,
                         won := true }] }
        else s1
  | _, _ => s

/-- Round skipping, from `skipRound` in `src/app/page.tsx`: a no-op with no
target or on a terminal round; otherwise ends the round without appending a
guess and records a zero-guess, not-won summary. -/
def skipRound (s : GameState) : GameState :=
  match s.roundOver, s.targetCountry with
  | false, some targetCountry =>
    { s with roundOver := true,
             roundResults := s.roundResults ++
               [{ country := targetCountry, guesses := 0, won := false }] }
  | _, _ => s

/-- Round start, from `startNewRound` in `src/app/page.tsx`, with the
policy-chosen target (random, random-excluding-previous, or the daily country)
passed explicitly: installs the target and resets all per-round state. -/
def startNewRound (target : Country) (s : GameState) : GameState :=
  { s with targetCountry := some target
           guesses := []
           roundOver := false
           win := false
           inputValue := ""
           error := "" }

/-- Typing in the input box, from the `onChange` handler and the suggestion
effect in `src/app/page.tsx`. -/
def setInputValue (v : String) (s : GameState) : GameState :=
  { s with inputValue := v, showSuggestions := decide (v.length > 0) }

/-- One user-driven transition of the component state. -/
inductive Step (countries : List Country) : GameState → GameState → Prop
  | submit (sel : Option Country) (s : GameState) :
      Step countries s (submitGuess countries sel s)
  | skip (s : GameState) : Step countries s (skipRound s)
  | start (target : Country) (s : GameState) : Step countries s (startNewRound target s)
  | setInput (v : String) (s : GameState) : Step countries s (setInputValue v s)

/-- Reachability of a game state from the initial state by user actions. -/
def Reachable (countries : List Country) (s : GameState) : Prop :=
  Relation.ReflTransGen (Step countries) initState s

/-- Daily target selection, from `getTodaysCountry` in `src/app/page.tsx`:
index the table by the number of whole days since the Unix epoch, modulo the
table length.  `nowMs` is `new Date().getTime()`, milliseconds since epoch. -/
def getTodaysCountry (countries : List Country) (nowMs : ℕ) : Option Country :=
  let daysSinceEpoch := nowMs / (1000 * 60 * 60 * 24)
  let index := daysSinceEpoch % countries.length
  countries[index]?

/-- Session aggregate, from `calculateAverageScore` in `src/app/page.tsx`:
mean guess count over won rounds only, `0` when no round was won.  (The
source formats the mean with `toFixed(1)` for display; the value itself is
modelled.) -/
def calculateAverageScore (roundResults : List RoundResult) : ℚ :=
  let wonRounds := roundResults.filter (fun r => r.won)
  if wonRounds.length = 0 then 0
  else
    let totalGuesses : ℕ := wonRounds.foldl (fun sum r => sum + r.guesses) 0
    (totalGuesses : ℚ) / (wonRounds.length : ℚ)

/-- Won-round count of the results screen, from `wonRounds` in
`src/app/page.tsx`. -/
def wonRounds (roundResults : List RoundResult) : ℕ :=
  (roundResults.filter (fun r => r.won)).length

/-- Sample table entry used to instantiate the theorems. -/
def france : Country :=
  { name := "France", code := "FR", latitude := 46, longitude := 2 }

/-- Sample table entry used to instantiate the theorems. -/
def germany : Country :=
  { name := "Germany", code := "DE", latitude := 51, longitude := 10 }

/-- Sample table entry used to instantiate the theorems. -/
def japan : Country :=
  { name := "Japan", code := "JP", latitude := 36, longitude := 138 }

/-- Arctangent of a nonnegative argument is nonnegative. -/
theorem arctan_nonneg_of (t : ℝ) (h : 0 ≤ t) : 0 ≤ Real.arctan t := by
  have h2 := Real.arctan_strictMono.monotone h
  rwa [Real.arctan_zero] at h2

/-- Arctangent of a nonpositive argument is nonpositive. -/
theorem arctan_nonpos_of (t : ℝ) (h : t ≤ 0) : Real.arctan t ≤ 0 := by
  have h2 := Real.arctan_strictMono.monotone h
  rwa [Real.arctan_zero] at h2

/-- Arctangent of a positive argument is positive. -/
theorem arctan_pos_of (t : ℝ) (h : 0 < t) : 0 < Real.arctan t := by
  have h2 := Real.arctan_strictMono h
  rwa [Real.arctan_zero] at h2

/-- The angle of the point `(1, 0)` is zero. -/
theorem atan2_zero_one : atan2 0 1 = 0 := by
  unfold atan2
  rw [if_pos one_pos]
  simp [Real.arctan_zero]

/-- The angle of the origin is the deterministic fallback zero. -/
theorem atan2_zero_zero : atan2 0 0 = 0 := by
  unfold atan2
  simp

/-- `atan2` always answers in `(-pi, pi]`. -/
theorem atan2_range (y x : ℝ) : -Real.pi < atan2 y x ∧ atan2 y x ≤ Real.pi := by
  have hpi := Real.pi_pos
  unfold atan2
  split_ifs with h1 h2 h3 h4 h5
  · exact ⟨by nlinarith [Real.neg_pi_div_two_lt_arctan (y / x)],
      by nlinarith [Real.arctan_lt_pi_div_two (y / x)]⟩
  · have hle : y / x ≤ 0 := div_nonpos_of_nonneg_of_nonpos h3 h2.le
    exact ⟨by nlinarith [Real.neg_pi_div_two_lt_arctan (y / x)],
      by nlinarith [arctan_nonpos_of (y / x) hle]⟩
  · have hpos : 0 < y / x := div_pos_of_neg_of_neg (lt_of_not_le h3) h2
    exact ⟨by nlinarith [arctan_pos_of (y / x) hpos],
      by nlinarith [Real.arctan_lt_pi_div_two (y / x)]⟩
  · exact ⟨by nlinarith, by nlinarith⟩
  · exact ⟨by nlinarith, by nlinarith⟩
  · exact ⟨by nlinarith, by nlinarith⟩

/-- With both coordinates nonnegative the angle lies in `[0, pi/2]`. -/
theorem atan2_nonneg_le (y x : ℝ) (hy : 0 ≤ y) (hx : 0 ≤ x) :
    0 ≤ atan2 y x ∧ atan2 y x ≤ Real.pi / 2 := by
  have hpi := Real.pi_pos
  unfold atan2
  rcases lt_or_eq_of_le hx with hx' | hx'
  · rw [if_pos hx']
    exact ⟨arctan_nonneg_of (y / x) (div_nonneg hy hx'.le),
      (Real.arctan_lt_pi_div_two (y / x)).le⟩
  · rw [if_neg (by rw [← hx']; exact lt_irrefl 0), if_neg (by rw [← hx']; exact lt_irrefl 0)]
    rcases lt_or_eq_of_le hy with hy' | hy'
    · rw [if_pos hy']
      exact ⟨by nlinarith, le_refl _⟩
    · rw [if_neg (by rw [← hy']; exact lt_irrefl 0), if_neg (by rw [← hy']; exact lt_irrefl 0)]
      exact ⟨le_refl 0, by nlinarith⟩

/-- A point is at haversine distance zero from itself. -/
theorem getDistanceFromLatLonInKm_self (lat lon : ℝ) :
    getDistanceFromLatLonInKm lat lon lat lon = 0 := by
  unfold getDistanceFromLatLonInKm deg2rad
  simp [atan2_zero_one]

/-- The haversine distance is symmetric in its two points. -/
theorem getDistanceFromLatLonInKm_comm (lat1 lon1 lat2 lon2 : ℝ) :
    getDistanceFromLatLonInKm lat1 lon1 lat2 lon2 =
      getDistanceFromLatLonInKm lat2 lon2 lat1 lon1 := by
  unfold getDistanceFromLatLonInKm
  have ha : Real.sin (deg2rad (lat2 - lat1) / 2) * Real.sin (deg2rad (lat2 - lat1) / 2) +
      Real.cos (deg2rad lat1) * Real.cos (deg2rad lat2) *
        Real.sin (deg2rad (lon2 - lon1) / 2) * Real.sin (deg2rad (lon2 - lon1) / 2) =
      Real.sin (deg2rad (lat1 - lat2) / 2) * Real.sin (deg2rad (lat1 - lat2) / 2) +
      Real.cos (deg2rad lat2) * Real.cos (deg2rad lat1) *
        Real.sin (deg2rad (lon1 - lon2) / 2) * Real.sin (deg2rad (lon1 - lon2) / 2) := by
    have h1 : deg2rad (lat1 - lat2) / 2 = -(deg2rad (lat2 - lat1) / 2) := by
      unfold deg2rad; ring
    have h2 : deg2rad (lon1 - lon2) / 2 = -(deg2rad (lon2 - lon1) / 2) := by
      unfold deg2rad; ring
    rw [h1, h2]
    simp only [Real.sin_neg]
    ring
  simp only [ha]

/-- The scaled haversine angle always lies in `[0, 6371 * pi]`. -/
theorem haversine_scale_bounds (a : ℝ) :
    0 ≤ 6371 * (2 * atan2 (Real.sqrt a) (Real.sqrt (1 - a))) ∧
      6371 * (2 * atan2 (Real.sqrt a) (Real.sqrt (1 - a))) ≤ Real.pi * 6371 := by
  obtain ⟨h1, h2⟩ := atan2_nonneg_le (Real.sqrt a) (Real.sqrt (1 - a))
    (Real.sqrt_nonneg a) (Real.sqrt_nonneg (1 - a))
  constructor <;> nlinarith [h1, h2]

/-- The haversine distance always lies in `[0, 6371 * pi]`. -/
theorem getDistanceFromLatLonInKm_bounds (lat1 lon1 lat2 lon2 : ℝ) :
    0 ≤ getDistanceFromLatLonInKm lat1 lon1 lat2 lon2 ∧
      getDistanceFromLatLonInKm lat1 lon1 lat2 lon2 ≤ Real.pi * 6371 := by
  unfold getDistanceFromLatLonInKm
  exact haversine_scale_bounds _

/-- A remainder with nonnegative dividend and positive divisor lies in
`[0, divisor)`. -/
theorem jsMod_nonneg_lt (a b : ℝ) (ha : 0 ≤ a) (hb : 0 < b) :
    0 ≤ jsMod a b ∧ jsMod a b < b := by
  unfold jsMod jsTrunc
  rw [if_pos (div_nonneg ha hb.le)]
  have h1 := Int.sub_floor_div_mul_nonneg a hb
  have h2 := Int.sub_floor_div_mul_lt a hb
  constructor
  · rw [mul_comm]; exact h1
  · rw [mul_comm]; exact h2

/-- The compass index computed from a bearing in `(-pi, pi]` lies in
`[0, 8]`. -/
theorem compass_index_spec (brng : ℝ) (h1 : -Real.pi < brng) (h2 : brng ≤ Real.pi) :
    0 ≤ jsRound (jsMod (brng * 180 / Real.pi + 360) 360 / 45) ∧
      jsRound (jsMod (brng * 180 / Real.pi + 360) 360 / 45) ≤ 8 := by
  have hpi := Real.pi_pos
  have hdeg2 : brng * 180 / Real.pi ≤ 180 := by
    rw [div_le_iff hpi]
    nlinarith
  have hdeg1 : (-180 : ℝ) < brng * 180 / Real.pi := by
    rw [lt_div_iff hpi]
    nlinarith
  obtain ⟨hm1, hm2⟩ := jsMod_nonneg_lt (brng * 180 / Real.pi + 360) 360
    (by linarith) (by norm_num)
  have hq1 : (0 : ℝ) ≤ jsMod (brng * 180 / Real.pi + 360) 360 / 45 := by positivity
  have hq2 : jsMod (brng * 180 / Real.pi + 360) 360 / 45 < 8 := by
    rw [div_lt_iff (by norm_num : (0:ℝ) < 45)]
    linarith
  unfold jsRound
  constructor
  · rw [Int.le_floor]
    push_cast
    linarith
  · have : ⌊jsMod (brng * 180 / Real.pi + 360) 360 / 45 + 1 / 2⌋ < 9 := by
      rw [Int.floor_lt]
      push_cast
      linarith
    omega

/-- The guarded compass lookup at any bearing in `(-pi, pi]` answers one of
the eight labels. -/
theorem compass_lookup_mem (brng : ℝ) (h1 : -Real.pi < brng) (h2 : brng ≤ Real.pi) :
    (if jsRound (jsMod (brng * 180 / Real.pi + 360) 360 / 45) < 0 then "undefined"
     else compass.getD (jsRound (jsMod (brng * 180 / Real.pi + 360) 360 / 45)).toNat
       "undefined") ∈ (["N", "NE", "E", "SE", "S", "SW", "W", "NW"] : List String) := by
  obtain ⟨hge, hle⟩ := compass_index_spec brng h1 h2
  rw [if_neg (not_lt.mpr hge)]
  have hk8 : (jsRound (jsMod (brng * 180 / Real.pi + 360) 360 / 45)).toNat ≤ 8 :=
    Int.toNat_le.mpr hle
  set k := (jsRound (jsMod (brng * 180 / Real.pi + 360) 360 / 45)).toNat with hk
  interval_cases k <;> simp [compass]

/-- `getDirection` always answers one of the eight compass labels. -/
theorem getDirection_mem (lat1 lon1 lat2 lon2 : ℝ) :
    getDirection lat1 lon1 lat2 lon2 ∈
      (["N", "NE", "E", "SE", "S", "SW", "W", "NW"] : List String) := by
  unfold getDirection
  exact compass_lookup_mem _ (atan2_range _ _).1 (atan2_range _ _).2

/-- For identical input points `getDirection` answers the deterministic
fallback label north. -/
theorem getDirection_self (lat lon : ℝ) : getDirection lat lon lat lon = "N" := by
  unfold getDirection
  have h0 : deg2rad (lon - lon) = 0 := by simp [deg2rad]
  have hx : Real.cos (deg2rad lat) * Real.sin (deg2rad lat) -
      Real.sin (deg2rad lat) * Real.cos (deg2rad lat) * Real.cos 0 = 0 := by
    rw [Real.cos_zero]; ring
  have hm : jsMod 360 360 = 0 := by
    unfold jsMod jsTrunc
    norm_num [Int.floor_one]
  have hr : jsRound (0 : ℝ) = 0 := by
    unfold jsRound
    norm_num [Int.floor_eq_zero_iff, Set.mem_Ico]
  simp only [h0, Real.sin_zero, zero_mul, hx, atan2_zero_zero, zero_div, zero_add, hm, hr]
  simp [compass]

/-- On an in-progress round, `submitGuess` is the candidate-resolution body of
the source: not-found error, duplicate error, or an accepted guess. -/
theorem submitGuess_eq (countries : List Country) (sel : Option Country) (s : GameState)
    (target : Country) (hro : s.roundOver = false) (ht : s.targetCountry = some target) :
    submitGuess countries sel s =
      match resolveCandidate countries sel s.inputValue with
      | none => { s with error := "Country not found! Please select from the list." }
      | some guessedCountry =>
        if s.guesses.any (fun g => g.country.code == guessedCountry.code) then
          { s with error := "You already guessed this country!" }
        else
          let distance := getDistanceFromLatLonInKm guessedCountry.latitude
            guessedCountry.longitude target.latitude target.longitude
          let newGuess : Guess := { country := guessedCountry, distance := distance }
          let updatedGuesses := newGuess :: s.guesses
          let s1 := { s with guesses := updatedGuesses, inputValue := "",
                             showSuggestions := false, error := "" }
          if guessedCountry.code == target.code then
            { s1 with win := true, roundOver := true,
                      roundResults := s1.roundResults ++
                        [{ country := target, guesses := updatedGuesses.length,
                           won := true }] }
          else s1 := by
  unfold submitGuess
  rw [hro, ht]

/-- A terminal round makes `submitGuess` a complete no-op. -/
theorem submitGuess_terminal (countries : List Country) (sel : Option Country)
    (s : GameState) (h : s.roundOver = true) : submitGuess countries sel s = s := by
  unfold submitGuess
  rw [h]

/-- A terminal round makes `skipRound` a complete no-op. -/
theorem skipRound_terminal (s : GameState) (h : s.roundOver = true) : skipRound s = s := by
  unfold skipRound
  rw [h]

/-- `skipRound` never changes the guess list. -/
theorem skipRound_guesses (s : GameState) : (skipRound s).guesses = s.guesses := by
  unfold skipRound
  cases hro : s.roundOver <;> cases ht : s.targetCountry <;> rfl

/-- A resolved candidate whose code is already among the guesses is rejected
with the duplicate-guess error message and no other state change. -/
theorem submitGuess_duplicate (countries : List Country) (sel : Option Country)
    (s : GameState) (target gc : Country)
    (hro : s.roundOver = false) (ht : s.targetCountry = some target)
    (hres : resolveCandidate countries sel s.inputValue = some gc)
    (hdup : ∃ g ∈ s.guesses, g.country.code = gc.code) :
    submitGuess countries sel s = { s with error := "You already guessed this country!" } := by
  have hany : s.guesses.any (fun g => g.country.code == gc.code) = true := by
    rw [List.any_eq_true]
    obtain ⟨g, hg, hc⟩ := hdup
    exact ⟨g, hg, by simp [hc]⟩
  rw [submitGuess_eq countries sel s target hro ht, hres]
  simp [hany]

/-- C6: a typed name matching no table entry — resolution being a
case-insensitive exact match on the country name — is rejected by
`submitGuess` with the not-found error message, leaving guess history,
terminal state and everything else unchanged. -/
theorem submitGuess_notFound (countries : List Country) (s : GameState) (target : Country)
    (hro : s.roundOver = false) (ht : s.targetCountry = some target)
    (hnone : ∀ c ∈ countries, toLowerCase c.name ≠ toLowerCase s.inputValue) :
    submitGuess countries none s =
      { s with error := "Country not found! Please select from the list." } := by
  have hres : resolveCandidate countries none s.inputValue = none := by
    unfold resolveCandidate
    rw [List.find?_eq_none]
    intro c hc
    simpa using hnone c hc
  rw [submitGuess_eq countries none s target hro ht, hres]

/-- The guess list of `submitGuess` either stays unchanged or gains, at the
front, one guess whose country code was not yet present. -/
theorem submitGuess_guesses_shape (countries : List Country) (sel : Option Country)
    (s : GameState) :
    (submitGuess countries sel s).guesses = s.guesses ∨
    ∃ gc : Country, (∀ g ∈ s.guesses, g.country.code ≠ gc.code) ∧
      (submitGuess countries sel s).guesses =
        { country := gc,
          distance := getDistanceFromLatLonInKm gc.latitude gc.longitude
            (s.targetCountry.getD gc).latitude (s.targetCountry.getD gc).longitude } ::
          s.guesses := by
  unfold submitGuess
  cases hro : s.roundOver
  · cases ht : s.targetCountry
    · left; rfl
    · case some target =>
      cases hres : resolveCandidate countries sel s.inputValue
      · left; rfl
      · case some gc =>
        simp only
        by_cases hany : s.guesses.any (fun g => g.country.code == gc.code) = true
        · rw [if_pos hany]
          left; rfl
        · rw [if_neg hany]
          right
          refine ⟨gc, ?_, ?_⟩
          · intro g hg
            rw [List.any_eq_true] at hany
            push_neg at hany
            simpa using hany g hg
          · by_cases hcode : (gc.code == target.code) = true
            · rw [if_pos hcode]; simp
            · rw [if_neg hcode]; simp
  · left; rfl

/-- Pairwise-distinct guess codes are preserved by `submitGuess`. -/
theorem submitGuess_pairwise (countries : List Country) (sel : Option Country)
    (s : GameState)
    (h : s.guesses.Pairwise fun g1 g2 => g1.country.code ≠ g2.country.code) :
    (submitGuess countries sel s).guesses.Pairwise
      fun g1 g2 => g1.country.code ≠ g2.country.code := by
  rcases submitGuess_guesses_shape countries sel s with heq | ⟨gc, hfresh, heq⟩
  · rw [heq]; exact h
  · rw [heq]
    exact List.Pairwise.cons (fun g hg => fun hc => hfresh g hg hc.symm) h

/-- Folding guess counts from an accumulator is the accumulator plus their
sum. -/
theorem foldl_guesses_eq_sum (l : List RoundResult) (n : ℕ) :
    l.foldl (fun sum r => sum + r.guesses) n = n + (l.map (fun r => r.guesses)).sum := by
  induction l generalizing n with
  | nil => simp
  | cons r t ih => rw [List.foldl_cons, ih, List.map_cons, List.sum_cons]; ring

/-- Day indices one apart select distinct positions in a table with more than
one entry. -/
theorem mod_succ_ne (d n : ℕ) (hn : 1 < n) : d % n ≠ (d + 1) % n := by
  intro heq
  have hdvd : n ∣ d + 1 - d := (Nat.modEq_iff_dvd' (Nat.le_succ d)).mp heq
  simp only [Nat.add_sub_cancel_left] at hdvd
  have h1 := Nat.dvd_one.mp hdvd
  omega

/-- Every reachable state has pairwise-distinct country codes in its guess
list. -/
theorem reachable_guesses_nodup (countries : List Country) (s : GameState)
    (h : Reachable countries s) :
    s.guesses.Pairwise fun g1 g2 => g1.country.code ≠ g2.country.code := by
  induction h with
  | refl => simp [initState]
  | tail hab hbc ih =>
    cases hbc with
    | submit sel => exact submitGuess_pairwise countries sel _ ih
    | skip => rw [skipRound_guesses]; exact ih
    | start target => simp [startNewRound]
    | setInput v => simpa [setInputValue] using ih

/-- C1: on an in-progress round, a successful `submitGuess` (candidate
resolved, not a duplicate) prepends the guess with its computed distance, and
— assuming the spec's data invariant that the computed distance is zero iff
the guessed code equals the target code — the round transitions to won
exactly when the distance is zero, i.e. exactly when the target itself is
guessed. -/
theorem submitGuess_success_spec (countries : List Country) (sel : Option Country)
    (s : GameState) (target gc : Country)
    (hro : s.roundOver = false) (ht : s.targetCountry = some target)
    (hwin : s.win = false)
    (hres : resolveCandidate countries sel s.inputValue = some gc)
    (hdup : ¬ ∃ g ∈ s.guesses, g.country.code = gc.code)
    (hdist : getDistanceFromLatLonInKm gc.latitude gc.longitude target.latitude
        target.longitude = 0 ↔ gc.code = target.code) :
    (submitGuess countries sel s).guesses =
      { country := gc,
        distance := getDistanceFromLatLonInKm gc.latitude gc.longitude target.latitude
          target.longitude } :: s.guesses ∧
    ((submitGuess countries sel s).roundOver = true ↔
      getDistanceFromLatLonInKm gc.latitude gc.longitude target.latitude
        target.longitude = 0) ∧
    ((submitGuess countries sel s).win = true ↔ gc.code = target.code) := by
  have hany : (s.guesses.any fun g => g.country.code == gc.code) = false := by
    rw [List.any_eq_false]
    intro g hg
    simp only [beq_iff_eq]
    exact fun hc => hdup ⟨g, hg, hc⟩
  rw [submitGuess_eq countries sel s target hro ht]
  simp only [hres, hany, Bool.false_eq_true, if_false]
  by_cases hcode : gc.code = target.code
  · rw [if_pos (by simp [hcode] : (gc.code == target.code) = true)]
    refine ⟨rfl, ?_, ?_⟩
    · simp [hdist.mpr hcode]
    · simp [hcode]
  · rw [if_neg (by simp [hcode] : ¬(gc.code == target.code) = true)]
    refine ⟨rfl, ?_, ?_⟩
    · simp only [hro]
      constructor
      · intro hfalse; exact absurd hfalse (by simp)
      · intro h0; exact absurd (hdist.mp h0) hcode
    · simp [hwin, hcode]

/-- Instance of C1: submitting the target country itself on a fresh round. -/
theorem submitGuess_success_spec_witness :
    (submitGuess [france] (some france) (startNewRound france initState)).guesses =
      { country := france,
        distance := getDistanceFromLatLonInKm france.latitude france.longitude
          france.latitude france.longitude } :: (startNewRound france initState).guesses ∧
    ((submitGuess [france] (some france) (startNewRound france initState)).roundOver = true ↔
      getDistanceFromLatLonInKm france.latitude france.longitude france.latitude
        france.longitude = 0) ∧
    ((submitGuess [france] (some france) (startNewRound france initState)).win = true ↔
      france.code = france.code) :=
  submitGuess_success_spec [france] (some france) (startNewRound france initState)
    france france rfl rfl rfl rfl (by simp [startNewRound, initState])
    (by simp [getDistanceFromLatLonInKm_self])

/-- C2: the feedback tiers of `getHotColdText` partition the nonnegative
distances at the fixed thresholds 0, 1000, 3000 and 8000, and the boundary
inputs 999, 1000 and 7999 resolve to hot, warm and cool respectively. -/
theorem getHotColdText_spec :
    (∀ d : ℝ, 0 ≤ d →
      ((getHotColdText d = "🎯 CORRECT!" ↔ d = 0) ∧
        (getHotColdText d = "🔥 HOT" ↔ 0 < d ∧ d < 1000) ∧
        (getHotColdText d = "🌡️ WARM" ↔ 1000 ≤ d ∧ d < 3000) ∧
        (getHotColdText d = "❄️ COOL" ↔ 3000 ≤ d ∧ d < 8000) ∧
        (getHotColdText d = "🧊 COLD" ↔ 8000 ≤ d))) ∧
    getHotColdText 999 = "🔥 HOT" ∧
    getHotColdText 1000 = "🌡️ WARM" ∧
    getHotColdText 7999 = "❄️ COOL" := by
  refine ⟨fun d hd => ?_, by norm_num [getHotColdText], by norm_num [getHotColdText],
    by norm_num [getHotColdText]⟩
  unfold getHotColdText
  split_ifs with h1 h2 h3 h4
  · subst h1
    exact ⟨iff_of_true rfl rfl, iff_of_false (by decide) (by norm_num),
      iff_of_false (by decide) (by norm_num), iff_of_false (by decide) (by norm_num),
      iff_of_false (by decide) (by norm_num)⟩
  · have hd2 : 0 < d := lt_of_le_of_ne hd (Ne.symm h1)
    exact ⟨iff_of_false (by decide) h1, iff_of_true rfl ⟨hd2, h2⟩,
      iff_of_false (by decide) (by rintro ⟨ha, _⟩; linarith),
      iff_of_false (by decide) (by rintro ⟨ha, _⟩; linarith),
      iff_of_false (by decide) (by intro ha; linarith)⟩
  · exact ⟨iff_of_false (by decide) h1,
      iff_of_false (by decide) (by rintro ⟨_, hb⟩; exact h2 hb),
      iff_of_true rfl ⟨not_lt.mp h2, h3⟩,
      iff_of_false (by decide) (by rintro ⟨ha, _⟩; linarith),
      iff_of_false (by decide) (by intro ha; linarith)⟩
  · exact ⟨iff_of_false (by decide) h1,
      iff_of_false (by decide) (by rintro ⟨_, hb⟩; exact h2 hb),
      iff_of_false (by decide) (by rintro ⟨_, hb⟩; exact h3 hb),
      iff_of_true rfl ⟨not_lt.mp h3, h4⟩,
      iff_of_false (by decide) (by intro ha; linarith)⟩
  · exact ⟨iff_of_false (by decide) h1,
      iff_of_false (by decide) (by rintro ⟨_, hb⟩; exact h2 hb),
      iff_of_false (by decide) (by rintro ⟨_, hb⟩; exact h3 hb),
      iff_of_false (by decide) (by rintro ⟨_, hb⟩; exact h4 hb),
      iff_of_true rfl (not_lt.mp h4)⟩

/-- Instance of C2: the boundary value 999 is classified hot because it is
strictly positive and below 1000. -/
theorem getHotColdText_spec_witness :
    (0 : ℝ) ≤ 999 ∧ (getHotColdText 999 = "🔥 HOT" ↔ (0 : ℝ) < 999 ∧ (999 : ℝ) < 1000) :=
  ⟨by norm_num, (getHotColdText_spec.1 999 (by norm_num)).2.1⟩

/-- C3: every reachable state has pairwise-distinct country codes in its
guess list, and a resolved candidate whose code is already present is
rejected with the duplicate-guess error and no other state change. -/
theorem guessList_distinct_spec (countries : List Country) (s : GameState)
    (h : Reachable countries s) :
    s.guesses.Pairwise (fun g1 g2 => g1.country.code ≠ g2.country.code) ∧
    ∀ sel target gc, s.roundOver = false → s.targetCountry = some target →
      resolveCandidate countries sel s.inputValue = some gc →
      (∃ g ∈ s.guesses, g.country.code = gc.code) →
      submitGuess countries sel s = { s with error := "You already guessed this country!" } :=
  ⟨reachable_guesses_nodup countries s h,
    fun sel target gc hro ht hres hdup =>
      submitGuess_duplicate countries sel s target gc hro ht hres hdup⟩

/-- Instance of C3: after guessing Germany on a round targeting France,
guessing Germany again is rejected as a duplicate. -/
theorem guessList_distinct_spec_witness :
    (submitGuess [france, germany] (some germany)
        (startNewRound france initState)).guesses.Pairwise
      (fun g1 g2 => g1.country.code ≠ g2.country.code) ∧
    submitGuess [france, germany] (some germany)
        (submitGuess [france, germany] (some germany) (startNewRound france initState)) =
      { submitGuess [france, germany] (some germany) (startNewRound france initState) with
        error := "You already guessed this country!" } := by
  have hreach : Reachable [france, germany]
      (submitGuess [france, germany] (some germany) (startNewRound france initState)) :=
    Relation.ReflTransGen.tail
      (Relation.ReflTransGen.tail Relation.ReflTransGen.refl (Step.start france initState))
      (Step.submit (some germany) (startNewRound france initState))
  obtain ⟨h1, h2⟩ := guessList_distinct_spec [france, germany] _ hreach
  refine ⟨h1, h2 (some germany) france germany rfl rfl rfl ?_⟩
  exact ⟨Guess.mk germany (getDistanceFromLatLonInKm germany.latitude germany.longitude
    france.latitude france.longitude), List.mem_singleton_self _, rfl⟩

/-- C4 (counterexample): the haversine distance is zero at the two distinct
valid coordinate pairs `(0, -180)` and `(0, 180)` — they denote the same
physical point, so the distance is not zero "only when the two input
coordinate pairs are identical". -/
theorem distance_zero_at_distinct_pairs :
    getDistanceFromLatLonInKm 0 (-180) 0 180 = 0 ∧ ((-180 : ℝ) ≠ 180) := by
  constructor
  · unfold getDistanceFromLatLonInKm
    have h0 : deg2rad (0 - 0) / 2 = 0 := by unfold deg2rad; ring
    have hpi : deg2rad (180 - -180) / 2 = Real.pi := by unfold deg2rad; ring
    simp only [h0, hpi, Real.sin_zero, Real.sin_pi]
    norm_num [Real.sqrt_zero, Real.sqrt_one, atan2_zero_one]
  · norm_num

/-- C4 (amended): for valid inputs the haversine distance is symmetric,
vanishes on identical coordinate pairs, and lies in `[0, pi * 6371]`; it is
not, however, zero only on identical coordinate pairs. -/
theorem getDistanceFromLatLonInKm_spec (lat1 lon1 lat2 lon2 : ℝ)
    (hlat1 : -90 ≤ lat1 ∧ lat1 ≤ 90) (hlon1 : -180 ≤ lon1 ∧ lon1 ≤ 180)
    (hlat2 : -90 ≤ lat2 ∧ lat2 ≤ 90) (hlon2 : -180 ≤ lon2 ∧ lon2 ≤ 180) :
    getDistanceFromLatLonInKm lat1 lon1 lat2 lon2 =
      getDistanceFromLatLonInKm lat2 lon2 lat1 lon1 ∧
    getDistanceFromLatLonInKm lat1 lon1 lat1 lon1 = 0 ∧
    0 ≤ getDistanceFromLatLonInKm lat1 lon1 lat2 lon2 ∧
    getDistanceFromLatLonInKm lat1 lon1 lat2 lon2 ≤ Real.pi * 6371 :=
  ⟨getDistanceFromLatLonInKm_comm lat1 lon1 lat2 lon2,
    getDistanceFromLatLonInKm_self lat1 lon1,
    (getDistanceFromLatLonInKm_bounds lat1 lon1 lat2 lon2).1,
    (getDistanceFromLatLonInKm_bounds lat1 lon1 lat2 lon2).2⟩

/-- Instance of C4 (amended): the guarantees at the sample points
`(46, 2)` and `(51, 10)`. -/
theorem getDistanceFromLatLonInKm_spec_witness :
    getDistanceFromLatLonInKm 46 2 51 10 = getDistanceFromLatLonInKm 51 10 46 2 ∧
    getDistanceFromLatLonInKm 46 2 46 2 = 0 ∧
    0 ≤ getDistanceFromLatLonInKm 46 2 51 10 ∧
    getDistanceFromLatLonInKm 46 2 51 10 ≤ Real.pi * 6371 :=
  getDistanceFromLatLonInKm_spec 46 2 51 10 (by norm_num) (by norm_num) (by norm_num)
    (by norm_num)

/-- C5: `getDirection` always answers one of the eight compass labels — the
computed index never leaves the lookup table — and identical input points
deterministically answer north. -/
theorem getDirection_spec :
    (∀ lat1 lon1 lat2 lon2 : ℝ,
      getDirection lat1 lon1 lat2 lon2 ∈
        (["N", "NE", "E", "SE", "S", "SW", "W", "NW"] : List String)) ∧
    (∀ lat lon : ℝ, getDirection lat lon lat lon = "N") :=
  ⟨getDirection_mem, getDirection_self⟩

/-- Instance of C6: the input "Atlantis" on a round targeting France is
rejected as not found. -/
theorem submitGuess_notFound_witness :
    submitGuess [france] none (setInputValue "Atlantis" (startNewRound france initState)) =
      { setInputValue "Atlantis" (startNewRound france initState) with
        error := "Country not found! Please select from the list." } :=
  submitGuess_notFound [france] _ france rfl rfl
    (by intro c hc; simp only [List.mem_singleton] at hc; subst hc; decide)

/-- C7: on a terminal round both `submitGuess` and `skipRound` are complete
no-ops: no field of the state changes, in particular no further guess is
appended, the win flag keeps its value and no summary record is added. -/
theorem terminal_round_noop (countries : List Country) (sel : Option Country)
    (s : GameState) (h : s.roundOver = true) :
    submitGuess countries sel s = s ∧ skipRound s = s :=
  ⟨submitGuess_terminal countries sel s h, skipRound_terminal s h⟩

/-- Instance of C7: both operations fix a concrete terminal state. -/
theorem terminal_round_noop_witness :
    submitGuess [france] none { initState with roundOver := true } =
        { initState with roundOver := true } ∧
      skipRound { initState with roundOver := true } = { initState with roundOver := true } :=
  terminal_round_noop [france] none { initState with roundOver := true } rfl

/-- C8: the daily target is a pure function of the date — the table entry at
index (days since epoch) mod (table length): calls on the same calendar day
agree, and under distinct table codes a date one day later selects a
different index and hence a different target when the table has more than
one entry. -/
theorem getTodaysCountry_spec (countries : List Country) (t1 t2 : ℕ)
    (hlen : 1 < countries.length)
    (hcodes : (countries.map (fun c => c.code)).Nodup)
    (hnext : t2 / 86400000 = t1 / 86400000 + 1) :
    (∀ u : ℕ, getTodaysCountry countries u =
      countries[(u / 86400000) % countries.length]?) ∧
    (∀ u1 u2 : ℕ, u1 / 86400000 = u2 / 86400000 →
      getTodaysCountry countries u1 = getTodaysCountry countries u2) ∧
    (t1 / 86400000) % countries.length ≠ (t2 / 86400000) % countries.length ∧
    getTodaysCountry countries t1 ≠ getTodaysCountry countries t2 := by
  have hms : (1000 * 60 * 60 * 24 : ℕ) = 86400000 := by norm_num
  have heq : ∀ u : ℕ, getTodaysCountry countries u =
      countries[(u / 86400000) % countries.length]? := by
    intro u
    unfold getTodaysCountry
    rw [hms]
  have hsame : ∀ u1 u2 : ℕ, u1 / 86400000 = u2 / 86400000 →
      getTodaysCountry countries u1 = getTodaysCountry countries u2 := by
    intro u1 u2 h
    rw [heq, heq, h]
  have hidx : (t1 / 86400000) % countries.length ≠
      (t2 / 86400000) % countries.length := by
    rw [hnext]
    exact mod_succ_ne (t1 / 86400000) countries.length hlen
  refine ⟨heq, hsame, hidx, ?_⟩
  have hn : 0 < countries.length := by omega
  have hi : (t1 / 86400000) % countries.length < countries.length := Nat.mod_lt _ hn
  have hj : (t2 / 86400000) % countries.length < countries.length := Nat.mod_lt _ hn
  rw [heq, heq, List.getElem?_eq_getElem hi, List.getElem?_eq_getElem hj]
  intro hsome
  have hcode : countries[(t1 / 86400000) % countries.length].code =
      countries[(t2 / 86400000) % countries.length].code :=
    congrArg Country.code (Option.some.inj hsome)
  have hi2 : (t1 / 86400000) % countries.length <
      (countries.map (fun c => c.code)).length := by simpa using hi
  have hj2 : (t2 / 86400000) % countries.length <
      (countries.map (fun c => c.code)).length := by simpa using hj
  have hget : (countries.map (fun c => c.code)).get ⟨_, hi2⟩ =
      (countries.map (fun c => c.code)).get ⟨_, hj2⟩ := by
    simp only [List.get_eq_getElem, List.getElem_map]
    exact hcode
  have hfin := hcodes.get_inj_iff.mp hget
  exact hidx (by simpa using congrArg Fin.val hfin)

/-- Instance of C8: with a two-entry table, epoch day zero and epoch day one
select different indices and different targets. -/
theorem getTodaysCountry_spec_witness :
    (0 / 86400000) % ([france, germany] : List Country).length ≠
      (86400000 / 86400000) % ([france, germany] : List Country).length ∧
    getTodaysCountry [france, germany] 0 ≠ getTodaysCountry [france, germany] 86400000 :=
  ⟨(getTodaysCountry_spec [france, germany] 0 86400000 (by norm_num) (by decide)
      (by norm_num)).2.2.1,
    (getTodaysCountry_spec [france, germany] 0 86400000 (by norm_num) (by decide)
      (by norm_num)).2.2.2⟩

/-- C9: the session aggregate counts won rounds and averages guess counts
over won rounds only — zero when no round was won — and the 3-round scenario
"won in 2, skipped, won in 4" yields win count 2 and average 3. -/
theorem session_aggregates :
    (∀ rr : List RoundResult,
      (wonRounds rr = 0 → calculateAverageScore rr = 0) ∧
      (0 < wonRounds rr → calculateAverageScore rr =
        ((rr.filter (fun r => r.won)).map (fun r => (r.guesses : ℚ))).sum /
          (wonRounds rr : ℚ))) ∧
    (∀ c1 c2 c3 : Country,
      wonRounds [RoundResult.mk c1 2 true, RoundResult.mk c2 0 false,
        RoundResult.mk c3 4 true] = 2 ∧
      calculateAverageScore [RoundResult.mk c1 2 true, RoundResult.mk c2 0 false,
        RoundResult.mk c3 4 true] = 3) := by
  constructor
  · intro rr
    constructor
    · intro h
      unfold wonRounds at h
      simp only [calculateAverageScore]
      rw [if_pos h]
    · intro h
      unfold wonRounds at h ⊢
      simp only [calculateAverageScore]
      rw [if_neg h.ne', foldl_guesses_eq_sum]
      simp [Nat.cast_list_sum, List.map_map, Function.comp_def]
  · intro c1 c2 c3
    constructor
    · rfl
    · norm_num [calculateAverageScore, List.filter, List.foldl_cons, List.foldl_nil]

/-- Instance of C9: the concrete 3-round scenario with nonzero win count. -/
theorem session_aggregates_witness :
    0 < wonRounds [RoundResult.mk france 2 true, RoundResult.mk germany 0 false,
      RoundResult.mk japan 4 true] ∧
    calculateAverageScore [RoundResult.mk france 2 true, RoundResult.mk germany 0 false,
        RoundResult.mk japan 4 true] =
      (([RoundResult.mk france 2 true, RoundResult.mk germany 0 false,
          RoundResult.mk japan 4 true].filter (fun r => r.won)).map
        (fun r => (r.guesses : ℚ))).sum /
        (wonRounds [RoundResult.mk france 2 true, RoundResult.mk germany 0 false,
          RoundResult.mk japan 4 true] : ℚ) :=
  ⟨by decide,
    ((session_aggregates.1 [RoundResult.mk france 2 true, RoundResult.mk germany 0 false,
      RoundResult.mk japan 4 true]).2 (by decide))⟩

/-- C10: skipping an in-progress round ends it as lost — terminal, not won —
without touching the guess list, and records a zero-guess, not-won summary
for the round. -/
theorem skipRound_spec (s : GameState) (target : Country)
    (hro : s.roundOver = false) (ht : s.targetCountry = some target)
    (hwin : s.win = false) :
    skipRound s = { s with roundOver := true,
                           roundResults := s.roundResults ++
                             [{ country := target, guesses := 0, won := false }] } ∧
    (skipRound s).roundOver = true ∧ (skipRound s).win = false ∧
    (skipRound s).guesses = s.guesses := by
  have h1 : skipRound s = { s with roundOver := true,
                                   roundResults := s.roundResults ++
                                     [{ country := target, guesses := 0, won := false }] } := by
    unfold skipRound
    rw [hro, ht]
  exact ⟨h1, by rw [h1], by rw [h1]; exact hwin, by rw [h1]⟩

/-- Instance of C10: skipping a fresh round targeting France. -/
theorem skipRound_spec_witness :
    skipRound (startNewRound france initState) =
      { startNewRound france initState with
          roundOver := true,
          roundResults := (startNewRound france initState).roundResults ++
            [{ country := france, guesses := 0, won := false }] } ∧
    (skipRound (startNewRound france initState)).roundOver = true ∧
    (skipRound (startNewRound france initState)).win = false ∧
    (skipRound (startNewRound france initState)).guesses =
      (startNewRound france initState).guesses :=
  skipRound_spec (startNewRound france initState) france rfl rfl rfl

end Worldle
